import Mathlib

/-!
Shallow embedding of the MPP task runtime in
`src/dbms/src/Flash/Mpp/MPPHandler.cpp` (namespace DB), together with proofs
about the claims of the natural-language specification.

Conventions of the embedding:
* C++ mutable objects become Lean structures; member functions become
  functions returning the updated structure.
* `std::atomic` loads/stores are individual state accesses; where an
  interleaving with another thread matters, the code is split into a small
  step relation (`taskStep`) at the granularity of those atomic accesses.
* Wall-clock time (`Clock::now()` cast to seconds since epoch) is passed
  explicitly as an `Int` argument.
* External collaborators (protobuf decoding, `executeQuery`, gRPC) are
  represented by their observable results carried in the request record.
* Bodies that live in headers or other files of the repository (MPPTunnel,
  MPPTaskManager registration, Settings defaults) are modelled from the
  spec; each such definition carries a doc comment starting with
  "Modelled from the spec:".
-/

/-- Task lifecycle status (enum TaskStatus, rendered by `taskStatusToString`,
MPPHandler.cpp lines 191-206). -/
inductive TaskStatus
  | INITIALIZING
  | RUNNING
  | FINISHED
  | CANCELLED
  deriving DecidableEq, Repr

/-- State of `MPPTaskProgress` (progress counter plus the bookkeeping used by
`isTaskHanging`). `current_progress` is the atomic row counter bumped by the
progress callback; the other three fields are only touched by the hang check. -/
structure MPPTaskProgress where
  current_progress : Nat
  progress_on_last_check : Nat
  found_no_progress : Bool
  epoch_when_found_no_progress : Int
  deriving DecidableEq, Repr

/-- Shallow embedding of `MPPTaskProgress::isTaskHanging` (MPPHandler.cpp
lines 30-61). `waiting_timeout` and `running_timeout` are the resolved values
of the settings `mpp_task_waiting_timeout` / `mpp_task_running_timeout` read
from the context; `now` is `Clock::now()` in seconds since epoch. Returns the
`ret` value and the updated progress state (the source mutates `*this`). -/
def MPPTaskProgress.isTaskHanging (p : MPPTaskProgress)
    (waiting_timeout running_timeout now : Int) : Bool × MPPTaskProgress :=
  let current_progress_value := p.current_progress
  if current_progress_value ≠ p.progress_on_last_check then
    -- make some progress
    (false, { p with found_no_progress := false,
                     progress_on_last_check := current_progress_value })
  else if p.found_no_progress = false then
    -- first time on no progress
    (false, { p with found_no_progress := true,
                     epoch_when_found_no_progress := now,
                     progress_on_last_check := current_progress_value })
  else
    -- no progress for a while, check timeout
    let no_progress_duration := now - p.epoch_when_found_no_progress
    let timeout_threshold :=
      if current_progress_value = 0 then waiting_timeout else running_timeout
    (decide (no_progress_duration > timeout_threshold),
     { p with progress_on_last_check := current_progress_value })

/-- Terminal message of a tunnel (exactly one End or Error is observed). -/
inductive TunnelTerminal
  | endOfStream
  | err (msg : String)
  deriving DecidableEq, Repr

/-- Producer-side view of an `MPPTunnel` as far as the claims need it: the
receiver meta it was created for, the timeout handed to its constructor
(MPPHandler.cpp line 154: `std::chrono::seconds timeout(task_request.timeout())`),
whether it was closed, and its terminal message. -/
structure MPPTunnel where
  receiver_start_ts : Nat
  receiver_task_id : Nat
  timeoutSeconds : Int
  closed : Bool
  terminal : Option TunnelTerminal
  deriving DecidableEq, Repr

/-- Modelled from the spec: `MPPTunnel::close` (the MPPTunnel body is not under
src/). Spec 4.1: unconditional shutdown — appends an Error terminal if none was
produced and transitions to Closed; after Closed all operations are no-ops. -/
def MPPTunnel.close (t : MPPTunnel) (reason : String) : MPPTunnel :=
  if t.closed then t
  else { t with closed := true,
                terminal := match t.terminal with
                  | none => some (TunnelTerminal.err reason)
                  | some x => some x }

/-- Modelled from the spec: the attach deadline an `MPPTunnel` derives from its
constructor timeout (the wait-for-attach body is not under src/). Spec 5 states
that a zero dispatch timeout disables the attach timeout, so a non-positive
constructor timeout imposes no deadline. -/
def MPPTunnel.attachDeadline (t : MPPTunnel) : Option Int :=
  if t.timeoutSeconds > 0 then some t.timeoutSeconds else none

/-- Task identifier: `(start_ts, task_id)` of the task meta. -/
structure MPPTaskId where
  start_ts : Nat
  task_id : Nat
  deriving DecidableEq, Repr

/-- The per-query settings store written by `MPPTask::prepare` via
`context.setSetting` (MPPHandler.cpp lines 99-116). A field holds `none` while
the setting was never overridden on this context, i.e. the server default is
in force (the defaults live in Settings.h, outside src/). -/
structure SettingsStore where
  read_tso : Option Nat
  schema_version : Option Int
  mpp_task_timeout : Option Int
  mpp_task_running_timeout : Option Int
  mpp_task_waiting_timeout : Option Int
  deriving DecidableEq, Repr

/-- Modelled from the spec: the effective hang deadline of a task context.
Settings.h (the server defaults) is not under src/; spec 5 and the spec's
design notes state that with a zero dispatch timeout the running timeout is
disabled, hence an unoverridden `mpp_task_running_timeout` models the absence
of a running-hang deadline. -/
def SettingsStore.runningDeadline (s : SettingsStore) : Option Int :=
  s.mpp_task_running_timeout

/-- The timeout-seeding part of `MPPTask::prepare` (MPPHandler.cpp lines
101-116): negative request timeout is test mode (5/10), otherwise
`mpp_task_timeout` is the request timeout and, when positive,
`mpp_task_running_timeout` is the request timeout plus 30. -/
def SettingsStore.setTimeouts (s : SettingsStore) (timeout : Int) : SettingsStore :=
  if timeout < 0 then
    { s with mpp_task_timeout := some 5, mpp_task_running_timeout := some 10 }
  else
    let s1 := { s with mpp_task_timeout := some timeout }
    if timeout > 0 then
      { s1 with mpp_task_running_timeout := some (timeout + 30) }
    else s1

/-- State of one `MPPTask` as the claims observe it. `managerSet` models the
`manager` back-pointer being non-null (set by successful registration, checked
by `MPPTask::unregisterTask`, lines 63-74); `streamsCancelled` models the
input-stream cancel issued by `MPPTask::cancel` step 1. -/
structure MPPTask where
  id : MPPTaskId
  status : TaskStatus
  context : SettingsStore
  task_progress : MPPTaskProgress
  tunnels : List MPPTunnel
  managerSet : Bool
  streamsCancelled : Bool
  deriving DecidableEq, Repr

/-- Shallow embedding of `MPPTask::isTaskHanging` (MPPHandler.cpp lines
284-289): delegate to the progress check only while status is RUNNING. -/
def MPPTask.isTaskHanging (t : MPPTask)
    (waiting_timeout running_timeout now : Int) : Bool × MPPTask :=
  if t.status = TaskStatus.RUNNING then
    let pr := t.task_progress.isTaskHanging waiting_timeout running_timeout now
    (pr.1, { t with task_progress := pr.2 })
  else
    (false, t)

/-- The process-wide task registry (`MPPTaskManager::mpp_query_map`, flattened
to an association list keyed by MPPTaskId; the nesting by query id does not
matter to the claims). The stored task value is the registration-time snapshot
(the C++ map stores a shared pointer to the same object). -/
structure TaskManager where
  tasks : List (MPPTaskId × MPPTask)
  deriving DecidableEq, Repr

def TaskManager.contains (m : TaskManager) (i : MPPTaskId) : Bool :=
  m.tasks.any (fun kv => kv.1 = i)

/-- Modelled from the spec: `MPPTaskManager::registerTask` (body not under
src/). Spec 4.4: insert into the registry, returning false on collision; on
success the task's manager pointer is set. -/
def TaskManager.registerTask (m : TaskManager) (t : MPPTask) :
    Bool × TaskManager × MPPTask :=
  if m.contains t.id then (false, m, t)
  else (true, { tasks := m.tasks ++ [(t.id, t)] }, { t with managerSet := true })

/-- Modelled from the spec: `MPPTaskManager::unregisterTask` removes the
registry entry for the task id (body not under src/; spec 4.4). -/
def TaskManager.removeTask (m : TaskManager) (i : MPPTaskId) : TaskManager :=
  { tasks := m.tasks.filter (fun kv => kv.1 ≠ i) }

/-- Shallow embedding of `MPPTask::unregisterTask` (MPPHandler.cpp lines
63-74): only acts when the manager pointer is set. -/
def MPPTask.unregisterTask (t : MPPTask) (m : TaskManager) : MPPTask × TaskManager :=
  if t.managerSet then (t, m.removeTask t.id) else (t, m)

/-- Modelled from the spec: `MPPTask::closeAllTunnel` (body not under src/).
Spec 4.3: close every outgoing tunnel with the reason, including those never
attached. -/
def MPPTask.closeAllTunnel (t : MPPTask) (reason : String) : MPPTask :=
  { t with tunnels := t.tunnels.map (fun tn => tn.close reason) }

/-- Shallow embedding of `MPPTask::cancel` (MPPHandler.cpp lines 291-319):
no-op when already FINISHED or CANCELLED; otherwise set status CANCELLED,
cancel the query input stream, then close every tunnel with the reason. -/
def MPPTask.cancel (t : MPPTask) (reason : String) : MPPTask :=
  if t.status = TaskStatus.FINISHED ∨ t.status = TaskStatus.CANCELLED then t
  else
    let t1 := { t with status := TaskStatus.CANCELLED, streamsCancelled := true }
    t1.closeAllTunnel reason

/-- A destination task meta decoded from the plan's exchange sender
(`mpp::TaskMeta`, MPPHandler.cpp lines 158-159). -/
structure ExchangeTaskMeta where
  start_ts : Nat
  task_id : Nat
  deriving DecidableEq, Repr

/-- Decoded content of the encoded plan consumed by prepare. Protobuf decoding
is external; a request carries the decode result directly. -/
structure PlanData where
  exchange_task_metas : List ExchangeTaskMeta
  is_root : Bool
  deriving DecidableEq, Repr

/-- The fields of `mpp::DispatchTaskRequest` read by the core, with external
outcomes represented by their results: `plan = none` models
`ParseFromString` failing, `execute_query_error` an exception thrown by
`executeQuery` during prepare (after tunnel registration, line 170), and
`run_error` an exception escaping `task->run()` or the failpoints inside
`MPPHandler::execute` (those bodies trap or are outside src/). -/
structure DispatchTaskRequest where
  start_ts : Nat
  task_id : Nat
  encoded_plan : String
  plan : Option PlanData
  regions : List Nat
  schema_ver : Int
  timeout : Int
  execute_query_error : Option String
  run_error : Option String
  deriving DecidableEq, Repr

def firstDupRegionAux : List Nat → List Nat → Option Nat
  | [], _ => none
  | r :: rest, seen => if r ∈ seen then some r else firstDupRegionAux rest (r :: seen)

/-- The first region id whose `emplace` fails in prepare's region loop
(MPPHandler.cpp lines 85-94), if any. -/
def firstDupRegion (rs : List Nat) : Option Nat := firstDupRegionAux rs []

/-- The `__PRETTY_FUNCTION__` prefix of error messages thrown by
`MPPTask::prepare` (a compiler-rendered signature; its exact text does not
matter to any claim). -/
def prepareFuncName : String :=
  "void DB::MPPTask::prepare(const mpp::DispatchTaskRequest&)"

def invalidPlanMsg (plan : String) : String :=
  prepareFuncName ++ ": Invalid encoded plan: " ++ plan

def dupRegionMsg (r : Nat) : String :=
  prepareFuncName ++ ": contain duplicate region " ++ toString r

/-- The message of the TiFlashException thrown when registration collides
(MPPHandler.cpp line 138). Note it is not the literal "DuplicateTask". -/
def registerFailMsg : String :=
  prepareFuncName ++ ": Failed to register MPP Task"

/-- A freshly constructed `MPPTask` (constructor in MPPHandler.h). Modelled
from the spec for the initial progress fields: spec 3 starts the progress
record with zero counters and an empty no-progress instant. -/
def MPPTask.mkFresh (req : DispatchTaskRequest) (ctx : SettingsStore) : MPPTask :=
  { id := { start_ts := req.start_ts, task_id := req.task_id },
    status := TaskStatus.INITIALIZING,
    context := ctx,
    task_progress := { current_progress := 0, progress_on_last_check := 0,
                       found_no_progress := false,
                       epoch_when_found_no_progress := 0 },
    tunnels := [],
    managerSet := false,
    streamsCancelled := false }

/-- The settings writes prepare performs on the task's context (MPPHandler.cpp
lines 95-116): read tso, schema version, then the timeout seeding. -/
def MPPTask.withRequestSettings (t0 : MPPTask) (req : DispatchTaskRequest) : MPPTask :=
  let ctx1 := { t0.context with read_tso := some req.start_ts,
                                schema_version := some req.schema_ver }
  { t0 with context := ctx1.setTimeouts req.timeout }

/-- The tunnel-registration loop of prepare (MPPHandler.cpp lines 151-168):
one tunnel per encoded task meta of the exchange sender, each constructed with
`std::chrono::seconds(task_request.timeout())` — the raw request value
(line 154). -/
def MPPTask.withTunnels (t : MPPTask) (req : DispatchTaskRequest)
    (plan : PlanData) : MPPTask :=
  { t with tunnels := t.tunnels ++
      plan.exchange_task_metas.map (fun meta =>
        { receiver_start_ts := meta.start_ts,
          receiver_task_id := meta.task_id,
          timeoutSeconds := req.timeout,
          closed := false,
          terminal := none }) }

/-- Shallow embedding of `MPPTask::prepare` (MPPHandler.cpp lines 76-189),
as a state transformer over the task, the registry and the task's context.
An error carries the message together with the state at the throw point (the
C++ mutations happened to shared objects). Failpoints are compiled out. -/
def MPPTask.prepare (t0 : MPPTask) (m : TaskManager) (req : DispatchTaskRequest) :
    Except (String × MPPTask × TaskManager) (MPPTask × TaskManager) :=
  match req.plan with
  | none => Except.error (invalidPlanMsg req.encoded_plan, t0, m)
  | some plan =>
    match firstDupRegion req.regions with
    | some r => Except.error (dupRegionMsg r, t0, m)
    | none =>
      -- register task (lines 124-139) after recording the settings
      let reg := m.registerTask (t0.withRequestSettings req)
      if reg.1 = false then Except.error (registerFailMsg, reg.2.2, reg.2.1)
      else
        -- register tunnels (lines 151-168)
        let t2 := (reg.2.2).withTunnels req plan
        -- executeQuery (line 170) may throw after registration
        match req.execute_query_error with
        | some msg => Except.error (msg, t2, reg.2.1)
        | none => Except.ok (t2, reg.2.1)

/-- The gRPC status returned by the dispatch handler. -/
inductive GrpcStatus
  | ok
  | err (msg : String)
  deriving DecidableEq, Repr

/-- `mpp::DispatchTaskResponse` as the core writes it: at most one error. -/
structure DispatchTaskResponse where
  error : Option String
  deriving DecidableEq, Repr

/-- Shallow embedding of `MPPHandler::handleError` (MPPHandler.cpp lines
321-335): close all tunnels of the task, then unregister it. -/
def MPPHandler.handleError (t : MPPTask) (m : TaskManager) (e : String) :
    MPPTask × TaskManager :=
  (t.closeAllTunnel e).unregisterTask m

/-- Shallow embedding of `MPPHandler::execute` (MPPHandler.cpp lines 337-379):
construct the task, prepare, run; every exception is trapped, written into the
response error field and handed to handleError; the gRPC status is OK on every
path. The effect of `run` on the status atomically is the step system
`taskStep` below; here only an exception escaping `task->run()` matters. -/
def MPPHandler.execute (m : TaskManager) (ctx : SettingsStore)
    (req : DispatchTaskRequest) :
    GrpcStatus × DispatchTaskResponse × TaskManager × MPPTask :=
  let task := MPPTask.mkFresh req ctx
  match task.prepare m req with
  | Except.error (msg, tE, mE) =>
    let h := MPPHandler.handleError tE mE msg
    (GrpcStatus.ok, { error := some msg }, h.2, h.1)
  | Except.ok (tOk, mOk) =>
    match req.run_error with
    | some msg =>
      let h := MPPHandler.handleError tOk mOk msg
      (GrpcStatus.ok, { error := some msg }, h.2, h.1)
    | none => (GrpcStatus.ok, { error := none }, mOk, tOk)

/-- Program counter of the `runImpl` worker thread, at the granularity of its
atomic accesses to `status`: before the initial status check (line 209),
inside the body after storing RUNNING (line 218), and after the final store
of FINISHED (line 281) or the early return. -/
inductive RunPC
  | notStarted
  | inBody
  | finished
  deriving DecidableEq, Repr

/-- The status-visible state of one task together with its run thread. -/
structure TaskRTState where
  status : TaskStatus
  pc : RunPC
  deriving DecidableEq, Repr

/-- Atomic events on a task's status: `runStart` is runImpl's initial check
plus the RUNNING store (lines 209-218), `runEnd` its unconditional final
FINISHED store (line 281, reached from the normal path and from every catch
branch), and `cancelEv` is `MPPTask::cancel`'s status access (lines 293-298;
the hang monitor cancels through the same code). -/
inductive TaskEvent
  | runStart
  | runEnd
  | cancelEv (reason : String)
  deriving DecidableEq, Repr

/-- One interleaving step of the status state machine, translated from the
atomic accesses in MPPHandler.cpp as described on `TaskEvent`. -/
def taskStep (s : TaskRTState) : TaskEvent → TaskRTState
  | TaskEvent.runStart =>
    if s.pc = RunPC.notStarted then
      if s.status = TaskStatus.INITIALIZING then
        { status := TaskStatus.RUNNING, pc := RunPC.inBody }
      else { s with pc := RunPC.finished }
    else s
  | TaskEvent.runEnd =>
    if s.pc = RunPC.inBody then
      { status := TaskStatus.FINISHED, pc := RunPC.finished }
    else s
  | TaskEvent.cancelEv _ =>
    if s.status = TaskStatus.FINISHED ∨ s.status = TaskStatus.CANCELLED then s
    else { s with status := TaskStatus.CANCELLED }

/-- A run of hang checks over `MPPTaskProgress`: each observation `(c, now)`
first lets the progress callback bring `current_progress` to `c`, then runs
`isTaskHanging` at time `now`. Returns the check results in order plus the
final state. -/
def runProgressChecks (p : MPPTaskProgress) (w r : Int) :
    List (Nat × Int) → List Bool × MPPTaskProgress
  | [] => ([], p)
  | (c, now) :: rest =>
    let step :=
      MPPTaskProgress.isTaskHanging { p with current_progress := c } w r now
    let restRun := runProgressChecks step.2 w r rest
    (step.1 :: restRun.1, restRun.2)

/-- A run of monitor ticks over a whole `MPPTask` with no progress callback
firing in between (the stalled-task scenario): each element is the tick time. -/
def hangTicks (t : MPPTask) (w r : Int) : List Int → List Bool × MPPTask
  | [] => ([], t)
  | now :: rest =>
    let step := t.isTaskHanging w r now
    let restRun := hangTicks step.2 w r rest
    (step.1 :: restRun.1, restRun.2)

/-! Concrete values used by witnesses and counterexamples. -/

/-- A context in which no MPP setting has been overridden (server defaults). -/
def emptySettings : SettingsStore :=
  { read_tso := none, schema_version := none, mpp_task_timeout := none,
    mpp_task_running_timeout := none, mpp_task_waiting_timeout := none }

/-- A registry with no task. -/
def emptyManager : TaskManager := { tasks := [] }

/-- A dispatch request in test mode: negative timeout, one downstream peer. -/
def negTimeoutRequest : DispatchTaskRequest :=
  { start_ts := 7, task_id := 1, encoded_plan := "plan",
    plan := some { exchange_task_metas := [{ start_ts := 8, task_id := 2 }],
                   is_root := true },
    regions := [], schema_ver := 0, timeout := -1,
    execute_query_error := none, run_error := none }

/-- A dispatch request with timeout zero and one downstream peer. -/
def zeroTimeoutRequest : DispatchTaskRequest :=
  { start_ts := 7, task_id := 1, encoded_plan := "plan",
    plan := some { exchange_task_metas := [{ start_ts := 8, task_id := 2 }],
                   is_root := true },
    regions := [], schema_ver := 0, timeout := 0,
    execute_query_error := none, run_error := none }

/-- A well-formed dispatch request used twice to provoke the duplicate case. -/
def dupRequest : DispatchTaskRequest :=
  { start_ts := 5, task_id := 3, encoded_plan := "plan",
    plan := some { exchange_task_metas := [], is_root := true },
    regions := [1, 2], schema_ver := 0, timeout := 1,
    execute_query_error := none, run_error := none }

/-- A dispatch request whose encoded plan fails to parse. -/
def badPlanRequest : DispatchTaskRequest :=
  { start_ts := 9, task_id := 4, encoded_plan := "garbage",
    plan := none,
    regions := [], schema_ver := 0, timeout := 1,
    execute_query_error := none, run_error := none }

/-- A running task with no progress yet, fresh progress bookkeeping. -/
def sampleRunningTask : MPPTask :=
  { id := { start_ts := 1, task_id := 1 }, status := TaskStatus.RUNNING,
    context := emptySettings,
    task_progress := { current_progress := 0, progress_on_last_check := 0,
                       found_no_progress := false,
                       epoch_when_found_no_progress := 0 },
    tunnels := [], managerSet := true, streamsCancelled := false }

/-! Helper lemmas shared by several claims. -/

theorem MPPTunnel.close_closed (tn : MPPTunnel) (r : String) :
    (tn.close r).closed = true := by
  unfold MPPTunnel.close
  split <;> simp_all

theorem MPPTask.cancel_cancel (t : MPPTask) (r : String) :
    MPPTask.cancel (MPPTask.cancel t r) r = MPPTask.cancel t r := by
  by_cases h : t.status = TaskStatus.FINISHED ∨ t.status = TaskStatus.CANCELLED
  · simp [MPPTask.cancel, h]
  · simp [MPPTask.cancel, MPPTask.closeAllTunnel, h]

theorem MPPTask.cancel_iterate_fixed (r : String) :
    ∀ (n : Nat) (t : MPPTask),
      (fun s => MPPTask.cancel s r)^[n] (MPPTask.cancel t r) = MPPTask.cancel t r := by
  intro n
  induction n with
  | zero => intro t; rfl
  | succ n ih =>
    intro t
    rw [Function.iterate_succ_apply]
    show (fun s => MPPTask.cancel s r)^[n] (MPPTask.cancel (MPPTask.cancel t r) r) = _
    rw [MPPTask.cancel_cancel]
    exact ih t

/-! The claims. -/

/-- C1: the claim says status only moves along
Initializing → Running → Finished, Initializing|Running → Cancelled, with
Finished and Cancelled absorbing. The code violates it: `runImpl` stores
FINISHED unconditionally at its end (MPPHandler.cpp line 281), so a cancel
that executes between runImpl's RUNNING store (line 218) and that final store
is overwritten — status moves Cancelled → Finished. This theorem evaluates
the step system at that schedule. -/
theorem c1_cancelled_overwritten_by_run_end :
    (taskStep (taskStep ⟨TaskStatus.INITIALIZING, RunPC.notStarted⟩
        TaskEvent.runStart) (TaskEvent.cancelEv "r")).status
      = TaskStatus.CANCELLED
    ∧ taskStep (taskStep (taskStep ⟨TaskStatus.INITIALIZING, RunPC.notStarted⟩
        TaskEvent.runStart) (TaskEvent.cancelEv "r")) TaskEvent.runEnd
      = ⟨TaskStatus.FINISHED, RunPC.finished⟩ := by
  exact ⟨rfl, rfl⟩

/-- C3: the claim says that with a negative request timeout the attach timeout
used for every tunnel is 5 seconds and the running timeout is 10 seconds. The
code sets the settings `mpp_task_timeout := 5` and
`mpp_task_running_timeout := 10` (lines 101-106), but constructs every tunnel
with the raw request timeout (`std::chrono::seconds(task_request.timeout())`,
line 154) — here −1, not 5. This theorem evaluates prepare at such a request. -/
theorem c3_test_mode_tunnel_gets_raw_timeout :
    ((MPPTask.mkFresh negTimeoutRequest emptySettings).prepare emptyManager
        negTimeoutRequest).toOption.map
      (fun x => (x.1.context.mpp_task_timeout,
                 x.1.context.mpp_task_running_timeout,
                 x.1.tunnels.map MPPTunnel.timeoutSeconds))
      = some (some 5, some 10, [-1])
    ∧ ((-1 : Int) ≠ 5) := by
  exact ⟨rfl, by decide⟩

/-- C7: cancel is idempotent — k ≥ 1 applications of `MPPTask.cancel` with the
same reason equal one application (the task state holds status, tunnel
terminals and stream flag; cancel never touches the registry, see lines
291-319), and on a task already FINISHED or CANCELLED cancel is the
identity. -/
theorem c7_cancel_idempotent :
    (∀ (t : MPPTask) (r : String) (k : Nat), 1 ≤ k →
        (fun s => MPPTask.cancel s r)^[k] t = MPPTask.cancel t r)
    ∧ (∀ (t : MPPTask) (r : String),
        (t.status = TaskStatus.FINISHED ∨ t.status = TaskStatus.CANCELLED) →
        MPPTask.cancel t r = t) := by
  constructor
  · intro t r k hk
    obtain ⟨n, rfl⟩ : ∃ n, k = n + 1 := ⟨k - 1, (Nat.succ_pred_eq_of_pos hk).symm⟩
    rw [Function.iterate_succ_apply]
    exact MPPTask.cancel_iterate_fixed r n t
  · intro t r h
    simp [MPPTask.cancel, h]

/-- Witness for C7 at a concrete running task, k = 3, and a finished task. -/
theorem c7_cancel_idempotent_witness :
    ((fun s => MPPTask.cancel s "x")^[3] sampleRunningTask
        = MPPTask.cancel sampleRunningTask "x")
    ∧ MPPTask.cancel { sampleRunningTask with status := TaskStatus.FINISHED } "y"
        = { sampleRunningTask with status := TaskStatus.FINISHED } := by
  exact ⟨c7_cancel_idempotent.1 sampleRunningTask "x" 3 (by decide),
         c7_cancel_idempotent.2 { sampleRunningTask with status := TaskStatus.FINISHED }
           "y" (Or.inl rfl)⟩

/-- C9: `MPPHandler::execute` returns gRPC OK on every input — all exceptions
from prepare or run are trapped (lines 357-377) and surfaced only through the
response error field, which is empty exactly when prepare succeeded and
nothing escaped run. -/
theorem c9_execute_always_grpc_ok :
    ∀ (m : TaskManager) (ctx : SettingsStore) (req : DispatchTaskRequest),
      (MPPHandler.execute m ctx req).1 = GrpcStatus.ok
      ∧ ((MPPHandler.execute m ctx req).2.1.error = none ↔
          ((MPPTask.mkFresh req ctx).prepare m req).toOption.isSome = true
          ∧ req.run_error = none) := by
  intro m ctx req
  unfold MPPHandler.execute
  cases h : (MPPTask.mkFresh req ctx).prepare m req with
  | error e =>
    obtain ⟨msg, tE, mE⟩ := e
    simp [h, Except.toOption]
  | ok x =>
    obtain ⟨tOk, mOk⟩ := x
    cases hr : req.run_error with
    | none => simp [h, hr, Except.toOption]
    | some msg => simp [h, hr, Except.toOption]

/-- C10: every call to `MPPTaskProgress::isTaskHanging` stores the loaded
progress value into `progress_on_last_check` (line 59), and when that value
differs from the previous check's value the call returns false and clears
`found_no_progress` (lines 34-38). -/
theorem c10_hang_check_updates_last_check :
    ∀ (p : MPPTaskProgress) (w r now : Int),
      (MPPTaskProgress.isTaskHanging p w r now).2.progress_on_last_check
        = p.current_progress
      ∧ (p.current_progress ≠ p.progress_on_last_check →
          (MPPTaskProgress.isTaskHanging p w r now).1 = false
          ∧ (MPPTaskProgress.isTaskHanging p w r now).2.found_no_progress = false) := by
  intro p w r now
  unfold MPPTaskProgress.isTaskHanging
  constructor
  · by_cases hc : p.current_progress = p.progress_on_last_check <;>
      by_cases hf : p.found_no_progress = false <;>
      simp [hc, hf]
  · intro h
    simp [h]

/-- Witness for C10 at a progress state that advanced since the last check. -/
theorem c10_hang_check_updates_last_check_witness :
    (MPPTaskProgress.isTaskHanging ⟨5, 3, true, 0⟩ 1 2 50).1 = false
    ∧ (MPPTaskProgress.isTaskHanging ⟨5, 3, true, 0⟩ 1 2 50).2.found_no_progress
        = false := by
  exact (c10_hang_check_updates_last_check ⟨5, 3, true, 0⟩ 1 2 50).2 (by decide)

/-! Step lemmas for the three branches of the hang check. -/

theorem hang_step_ne (p : MPPTaskProgress) (w r now : Int)
    (h : p.current_progress ≠ p.progress_on_last_check) :
    MPPTaskProgress.isTaskHanging p w r now
      = (false, { p with found_no_progress := false,
                         progress_on_last_check := p.current_progress }) := by
  simp [MPPTaskProgress.isTaskHanging, h]

theorem hang_step_arm (p : MPPTaskProgress) (w r now : Int)
    (h1 : p.current_progress = p.progress_on_last_check)
    (h2 : p.found_no_progress = false) :
    MPPTaskProgress.isTaskHanging p w r now
      = (false, { p with found_no_progress := true,
                         epoch_when_found_no_progress := now,
                         progress_on_last_check := p.current_progress }) := by
  simp [MPPTaskProgress.isTaskHanging, h1, h2]

theorem hang_step_armed (p : MPPTaskProgress) (w r now : Int)
    (h1 : p.current_progress = p.progress_on_last_check)
    (h2 : p.found_no_progress = true) :
    MPPTaskProgress.isTaskHanging p w r now
      = (decide (now - p.epoch_when_found_no_progress >
                  (if p.current_progress = 0 then w else r)),
         { p with progress_on_last_check := p.current_progress }) := by
  simp [MPPTaskProgress.isTaskHanging, h1, h2]

/-- After a check whose loaded value strictly exceeds the previous check's
value, and for every strictly increasing continuation, every result is false. -/
theorem runChecks_all_false_of_gt :
    ∀ (obs : List (Nat × Int)) (p : MPPTaskProgress) (w r : Int),
      List.Chain' (fun a b => a.1 < b.1) obs →
      (∀ hd ∈ obs.head?, p.progress_on_last_check < hd.1) →
      (runProgressChecks p w r obs).1.all (fun b => !b) = true := by
  intro obs
  induction obs with
  | nil => intro p w r _ _; rfl
  | cons hd tl ih =>
    intro p w r hchain hhd
    obtain ⟨c, now⟩ := hd
    have hlt : p.progress_on_last_check < c := hhd (c, now) rfl
    rw [List.chain'_cons'] at hchain
    simp only [runProgressChecks]
    rw [hang_step_ne { p with current_progress := c } w r now (by simpa using hlt.ne')]
    simp only [List.all_cons, Bool.not_false, Bool.true_and]
    exact ih _ w r hchain.2 (fun hd2 hh2 => by
      have := hchain.1 hd2 hh2
      simpa using this)

/-- C2: `MPPTask::isTaskHanging` returns true only while status is RUNNING
(lines 284-289), and over any run of progress checks on a task whose progress
counter strictly increased between each pair of consecutive checks taken at
intervals of at most `running_timeout`, starting from bookkeeping that has not
yet flagged a stall, no check ever returns true: a changed counter takes the
progress branch (lines 34-38) and a first unchanged observation only arms the
clock (lines 42-47). -/
theorem c2_hang_detection_soundness :
    (∀ (t : MPPTask) (w r now : Int),
        (MPPTask.isTaskHanging t w r now).1 = true → t.status = TaskStatus.RUNNING)
    ∧ (∀ (p : MPPTaskProgress) (w r : Int) (obs : List (Nat × Int)),
        p.found_no_progress = false →
        List.Chain' (fun a b => a.1 < b.1) obs →
        List.Chain' (fun a b => b.2 - a.2 ≤ r) obs →
        (runProgressChecks p w r obs).1.all (fun b => !b) = true) := by
  constructor
  · intro t w r now h
    by_cases hs : t.status = TaskStatus.RUNNING
    · exact hs
    · simp [MPPTask.isTaskHanging, hs] at h
  · intro p w r obs hf hchain _hr
    cases obs with
    | nil => rfl
    | cons hd tl =>
      obtain ⟨c, now⟩ := hd
      rw [List.chain'_cons'] at hchain
      by_cases hcl : c = p.progress_on_last_check
      · simp only [runProgressChecks]
        rw [hang_step_arm { p with current_progress := c } w r now (by simpa using hcl)
          (by simpa using hf)]
        simp only [List.all_cons, Bool.not_false, Bool.true_and]
        exact runChecks_all_false_of_gt tl _ w r hchain.2 (fun hd2 hh2 => by
          have := hchain.1 hd2 hh2
          simpa using this)
      · simp only [runProgressChecks]
        rw [hang_step_ne { p with current_progress := c } w r now (by simpa using hcl)]
        simp only [List.all_cons, Bool.not_false, Bool.true_and]
        exact runChecks_all_false_of_gt tl _ w r hchain.2 (fun hd2 hh2 => by
          have := hchain.1 hd2 hh2
          simpa using this)

/-- Witness for C2: a fresh progress record checked three times with strictly
increasing counters at intervals within the running timeout. -/
theorem c2_hang_detection_soundness_witness :
    (runProgressChecks ⟨0, 0, false, 0⟩ 5 10 [(1, 100), (2, 105), (3, 110)]).1.all
      (fun b => !b) = true :=
  c2_hang_detection_soundness.2 ⟨0, 0, false, 0⟩ 5 10 [(1, 100), (2, 105), (3, 110)]
    rfl (by norm_num [List.chain'_cons]) (by norm_num [List.chain'_cons])

/-! Task-level step lemmas for a stalled running task. -/

theorem task_hang_step_arm (t : MPPTask) (w r now : Int)
    (hs : t.status = TaskStatus.RUNNING)
    (hf : t.task_progress.found_no_progress = false)
    (hcl : t.task_progress.current_progress = t.task_progress.progress_on_last_check) :
    MPPTask.isTaskHanging t w r now
      = (false, { t with task_progress :=
          { t.task_progress with found_no_progress := true,
                                 epoch_when_found_no_progress := now,
                                 progress_on_last_check :=
                                   t.task_progress.current_progress } }) := by
  simp [MPPTask.isTaskHanging, hs, hang_step_arm t.task_progress w r now hcl hf]

theorem task_hang_step_armed (t : MPPTask) (w r now : Int)
    (hs : t.status = TaskStatus.RUNNING)
    (hf : t.task_progress.found_no_progress = true)
    (hcl : t.task_progress.current_progress = t.task_progress.progress_on_last_check) :
    MPPTask.isTaskHanging t w r now
      = (decide (now - t.task_progress.epoch_when_found_no_progress >
            (if t.task_progress.current_progress = 0 then w else r)), t) := by
  obtain ⟨tid, tst, tctx, tp, ttun, tms, tsc⟩ := t
  obtain ⟨cp, lc, fn, ep⟩ := tp
  simp only at hs hf hcl
  subst hs hf hcl
  simp [MPPTask.isTaskHanging, MPPTaskProgress.isTaskHanging]

/-- Ticks on an armed, stalled running task: every tick within the threshold
reports false and leaves the task unchanged; the first tick past the threshold
reports true. -/
theorem hangTicks_armed :
    ∀ (mids : List Int) (t : MPPTask) (w r t2 : Int),
      t.status = TaskStatus.RUNNING →
      t.task_progress.found_no_progress = true →
      t.task_progress.current_progress = t.task_progress.progress_on_last_check →
      (∀ m ∈ mids, ¬ (m - t.task_progress.epoch_when_found_no_progress >
          (if t.task_progress.current_progress = 0 then w else r))) →
      (t2 - t.task_progress.epoch_when_found_no_progress >
          (if t.task_progress.current_progress = 0 then w else r)) →
      (hangTicks t w r (mids ++ [t2])).1
        = List.replicate mids.length false ++ [true] := by
  intro mids
  induction mids with
  | nil =>
    intro t w r t2 hs hf hcl _ ht2
    simp only [List.nil_append, hangTicks,
      task_hang_step_armed t w r t2 hs hf hcl]
    simp [ht2]
  | cons m mids ih =>
    intro t w r t2 hs hf hcl hmid ht2
    have hm : ¬ (m - t.task_progress.epoch_when_found_no_progress >
        (if t.task_progress.current_progress = 0 then w else r)) :=
      hmid m (List.mem_cons_self m mids)
    simp only [List.cons_append, hangTicks,
      task_hang_step_armed t w r m hs hf hcl]
    have : (decide (m - t.task_progress.epoch_when_found_no_progress >
        (if t.task_progress.current_progress = 0 then w else r))) = false := by
      simpa using hm
    rw [this]
    simp only [List.append_eq]
    rw [ih t w r t2 hs hf hcl (fun x hx => hmid x (List.mem_cons_of_mem m hx)) ht2]
    simp [List.replicate_succ]

/-- C8: hang-detection completeness. For a RUNNING task whose progress counter
never changes, the first monitor tick observing the stall arms the no-progress
clock (lines 42-47); every later tick within the applicable timeout
(`waiting_timeout` while the counter is 0, `running_timeout` otherwise, lines
53-54) reports false, and the first tick strictly past the timeout reports the
task hanging (lines 50-56). -/
theorem c8_hang_detection_completeness :
    ∀ (t : MPPTask) (w r t1 t2 : Int) (mids : List Int),
      t.status = TaskStatus.RUNNING →
      t.task_progress.found_no_progress = false →
      t.task_progress.current_progress = t.task_progress.progress_on_last_check →
      (∀ m ∈ mids, m - t1 ≤ (if t.task_progress.current_progress = 0 then w else r)) →
      (t2 - t1 > (if t.task_progress.current_progress = 0 then w else r)) →
      (hangTicks t w r (t1 :: (mids ++ [t2]))).1
        = List.replicate (mids.length + 1) false ++ [true] := by
  intro t w r t1 t2 mids hs hf hcl hmid ht2
  simp only [hangTicks, task_hang_step_arm t w r t1 hs hf hcl]
  rw [hangTicks_armed mids _ w r t2 (by simpa using hs) (by simp) (by simp)
    (by intro x hx; simpa using hmid x hx) (by simpa using ht2)]
  simp [List.replicate_succ]

/-- Witness for C8: a running task that produced nothing, waiting timeout 5,
armed at time 100, a tick at 103 within the timeout, reported at 106. -/
theorem c8_hang_detection_completeness_witness :
    (hangTicks sampleRunningTask 5 10 (100 :: ([103] ++ [106]))).1
      = List.replicate 2 false ++ [true] :=
  c8_hang_detection_completeness sampleRunningTask 5 10 100 106 [103]
    rfl rfl rfl (by intro m hm; simp at hm; simp [hm, sampleRunningTask])
    (by norm_num [sampleRunningTask])

/-! Helper lemmas about handleError and the registry. -/

theorem MPPTask.closeAllTunnel_all_closed (t : MPPTask) (r : String) :
    (t.closeAllTunnel r).tunnels.all (fun tn => tn.closed) = true := by
  unfold MPPTask.closeAllTunnel
  rw [List.all_eq_true]
  intro tn htn
  simp only [List.mem_map] at htn
  obtain ⟨tn0, _, rfl⟩ := htn
  simp [MPPTunnel.close_closed]

theorem MPPHandler.handleError_task_tunnels_closed (t : MPPTask) (m : TaskManager)
    (e : String) :
    (MPPHandler.handleError t m e).1.tunnels.all (fun tn => tn.closed) = true := by
  unfold MPPHandler.handleError MPPTask.unregisterTask
  split <;> exact MPPTask.closeAllTunnel_all_closed t e

theorem TaskManager.removeTask_after_insert (m : TaskManager) (i : MPPTaskId)
    (t : MPPTask) (h : m.contains i = false) :
    TaskManager.removeTask { tasks := m.tasks ++ [(i, t)] } i = m := by
  unfold TaskManager.removeTask
  unfold TaskManager.contains at h
  rw [List.any_eq_false] at h
  have hkeep : m.tasks.filter (fun kv => decide (kv.1 ≠ i)) = m.tasks := by
    rw [List.filter_eq_self]
    intro kv hkv
    have := h kv hkv
    simp at this ⊢
    exact this
  rw [List.filter_append, hkeep]
  simp

/-- Registration fails exactly on a key collision. -/
theorem TaskManager.registerTask_fst (m : TaskManager) (t : MPPTask) :
    (m.registerTask t).1 = !(m.contains t.id) := by
  unfold TaskManager.registerTask
  split <;> simp_all


theorem TaskManager.registerTask_snd_task (m : TaskManager) (t : MPPTask)
    (h : m.contains t.id = false) :
    (m.registerTask t).2.2 = { t with managerSet := true } := by
  unfold TaskManager.registerTask
  simp [h]

theorem TaskManager.registerTask_snd_mgr (m : TaskManager) (t : MPPTask)
    (h : m.contains t.id = false) :
    (m.registerTask t).2.1 = { tasks := m.tasks ++ [(t.id, t)] } := by
  unfold TaskManager.registerTask
  simp [h]

/-- C4: for a dispatch request with timeout zero, prepare stores
`mpp_task_timeout := 0` and never touches `mpp_task_running_timeout`
(the `timeout > 0` branch at MPPHandler.cpp lines 110-115 is skipped), so the
running-hang deadline stays at the unoverridden default — disabled, as
modelled from the spec — and every tunnel is constructed with timeout 0,
which disables its attach deadline. -/
theorem c4_zero_timeout_disables_timeouts :
    ∀ (t0 : MPPTask) (m : TaskManager) (req : DispatchTaskRequest)
      (t' : MPPTask) (m' : TaskManager),
      req.timeout = 0 →
      t0.context.mpp_task_running_timeout = none →
      t0.tunnels = [] →
      t0.prepare m req = Except.ok (t', m') →
      t'.context.runningDeadline = none
      ∧ t'.context.mpp_task_timeout = some 0
      ∧ t'.tunnels.all (fun tn => tn.attachDeadline.isNone) = true := by
  intro t0 m req t' m' htime hrun htun h
  unfold MPPTask.prepare at h
  split at h
  · exact absurd h (by simp)
  · split at h
    · exact absurd h (by simp)
    · split at h
      · by_cases hreg : (m.registerTask (t0.withRequestSettings req)).1 = false <;>
          simp [hreg] at h
      · rename_i plan hplan hexec
        by_cases hreg : (m.registerTask (t0.withRequestSettings req)).1 = false
        · simp [hreg] at h
        · simp [hreg] at h
          obtain ⟨ht', hm'⟩ := h
          subst ht'
          have hcontains : m.contains (t0.withRequestSettings req).id = false := by
            rw [TaskManager.registerTask_fst] at hreg
            simpa using hreg
          rw [TaskManager.registerTask_snd_task m (t0.withRequestSettings req) hcontains]
          refine ⟨?_, ?_, ?_⟩
          · simp [MPPTask.withTunnels, MPPTask.withRequestSettings,
              SettingsStore.setTimeouts, SettingsStore.runningDeadline, htime, hrun]
          · simp [MPPTask.withTunnels, MPPTask.withRequestSettings,
              SettingsStore.setTimeouts, htime]
          · rw [List.all_eq_true]
            intro tn htn
            simp only [MPPTask.withTunnels, MPPTask.withRequestSettings,
              htun, List.nil_append, List.mem_map] at htn
            obtain ⟨meta, _, rfl⟩ := htn
            simp [MPPTunnel.attachDeadline, htime]

/-- Witness for C4: the zero-timeout request against an empty registry and an
unoverridden context; prepare succeeds and both deadlines come out disabled. -/
theorem c4_zero_timeout_disables_timeouts_witness :
    ((MPPTask.mkFresh zeroTimeoutRequest emptySettings).prepare emptyManager
        zeroTimeoutRequest).toOption.map
      (fun x => (x.1.context.runningDeadline, x.1.context.mpp_task_timeout,
                 x.1.tunnels.all (fun tn => tn.attachDeadline.isNone)))
      = some (none, some 0, true) := by
  have h : (MPPTask.mkFresh zeroTimeoutRequest emptySettings).prepare emptyManager
      zeroTimeoutRequest = Except.ok
        ({ id := { start_ts := 7, task_id := 1 },
           status := TaskStatus.INITIALIZING,
           context := { read_tso := some 7, schema_version := some 0,
                        mpp_task_timeout := some 0,
                        mpp_task_running_timeout := none,
                        mpp_task_waiting_timeout := none },
           task_progress := { current_progress := 0, progress_on_last_check := 0,
                              found_no_progress := false,
                              epoch_when_found_no_progress := 0 },
           tunnels := [{ receiver_start_ts := 8, receiver_task_id := 2,
                         timeoutSeconds := 0, closed := false, terminal := none }],
           managerSet := true, streamsCancelled := false },
         { tasks := [({ start_ts := 7, task_id := 1 },
             { id := { start_ts := 7, task_id := 1 },
               status := TaskStatus.INITIALIZING,
               context := { read_tso := some 7, schema_version := some 0,
                            mpp_task_timeout := some 0,
                            mpp_task_running_timeout := none,
                            mpp_task_waiting_timeout := none },
               task_progress := { current_progress := 0, progress_on_last_check := 0,
                                  found_no_progress := false,
                                  epoch_when_found_no_progress := 0 },
               tunnels := [], managerSet := false, streamsCancelled := false })] }) :=
    rfl
  have hc := c4_zero_timeout_disables_timeouts
    (MPPTask.mkFresh zeroTimeoutRequest emptySettings) emptyManager zeroTimeoutRequest
    _ _ rfl rfl rfl h
  rw [h]
  simp [Except.toOption, hc.1, hc.2.1, hc.2.2]

theorem TaskManager.registerTask_collision (m : TaskManager) (t : MPPTask)
    (h : m.contains t.id = true) :
    m.registerTask t = (false, m, t) := by
  unfold TaskManager.registerTask
  simp [h]

theorem prepare_error_restores_manager (t0 : MPPTask) (m : TaskManager)
    (req : DispatchTaskRequest) (msg : String) (tE : MPPTask) (mE : TaskManager)
    (h0 : t0.managerSet = false)
    (h : t0.prepare m req = Except.error (msg, tE, mE)) :
    (MPPHandler.handleError tE mE msg).2 = m := by
  unfold MPPTask.prepare at h
  split at h
  · simp only [Except.error.injEq, Prod.mk.injEq] at h
    obtain ⟨-, h2, h3⟩ := h
    subst h2
    subst h3
    simp [MPPHandler.handleError, MPPTask.closeAllTunnel, MPPTask.unregisterTask, h0]
  · split at h
    · simp only [Except.error.injEq, Prod.mk.injEq] at h
      obtain ⟨-, h2, h3⟩ := h
      subst h2
      subst h3
      simp [MPPHandler.handleError, MPPTask.closeAllTunnel, MPPTask.unregisterTask, h0]
    · split at h
      · -- execute_query_error = some
        rename_i plan hplan hexec
        by_cases hreg : (m.registerTask (t0.withRequestSettings req)).1 = false
        · -- registration failed: collision
          have hcont : m.contains (t0.withRequestSettings req).id = true := by
            rw [TaskManager.registerTask_fst] at hreg
            simpa using hreg
          simp [TaskManager.registerTask_collision m _ hcont] at h
          obtain ⟨-, h2, h3⟩ := h
          subst h2
          subst h3
          simp [MPPHandler.handleError, MPPTask.closeAllTunnel, MPPTask.unregisterTask,
            MPPTask.withRequestSettings, h0]
        · -- registered, then executeQuery threw
          have hcont : m.contains (t0.withRequestSettings req).id = false := by
            rw [TaskManager.registerTask_fst] at hreg
            simpa using hreg
          simp [hreg, TaskManager.registerTask_snd_task m _ hcont,
            TaskManager.registerTask_snd_mgr m _ hcont] at h
          obtain ⟨-, h2, h3⟩ := h
          subst h2
          subst h3
          simp only [MPPHandler.handleError, MPPTask.closeAllTunnel,
            MPPTask.unregisterTask, MPPTask.withTunnels]
          simp only [if_true]
          exact TaskManager.removeTask_after_insert m _ _ hcont
      · -- execute_query_error = none
        rename_i plan hplan hexec
        by_cases hreg : (m.registerTask (t0.withRequestSettings req)).1 = false
        · have hcont : m.contains (t0.withRequestSettings req).id = true := by
            rw [TaskManager.registerTask_fst] at hreg
            simpa using hreg
          simp [TaskManager.registerTask_collision m _ hcont] at h
          obtain ⟨-, h2, h3⟩ := h
          subst h2
          subst h3
          simp [MPPHandler.handleError, MPPTask.closeAllTunnel, MPPTask.unregisterTask,
            MPPTask.withRequestSettings, h0]
        · simp [hreg] at h

/-- Reduction of `MPPHandler::execute` on a prepare failure. -/
theorem execute_of_prepare_error (m : TaskManager) (ctx : SettingsStore)
    (req : DispatchTaskRequest) (msg : String) (tE : MPPTask) (mE : TaskManager)
    (h : (MPPTask.mkFresh req ctx).prepare m req = Except.error (msg, tE, mE)) :
    MPPHandler.execute m ctx req
      = (GrpcStatus.ok, { error := some msg },
         (MPPHandler.handleError tE mE msg).2, (MPPHandler.handleError tE mE msg).1) := by
  simp only [MPPHandler.execute]
  rw [h]

/-- C5: every error thrown during prepare is trapped by `MPPHandler::execute`
(lines 357-377), surfaced as the response's error message, and handled by
`handleError` (lines 321-335), which closes all of the task's tunnels and
unregisters it — so the registry is exactly what it was before the dispatch
(no half-registered task, no orphan tunnel reachable through it), and every
tunnel of the failed task is closed. -/
theorem c5_prepare_error_clean_failure :
    ∀ (ctx : SettingsStore) (req : DispatchTaskRequest) (m : TaskManager)
      (msg : String) (tE : MPPTask) (mE : TaskManager),
      (MPPTask.mkFresh req ctx).prepare m req = Except.error (msg, tE, mE) →
      (MPPHandler.execute m ctx req).1 = GrpcStatus.ok
      ∧ (MPPHandler.execute m ctx req).2.1.error = some msg
      ∧ (MPPHandler.execute m ctx req).2.2.1 = m
      ∧ (MPPHandler.execute m ctx req).2.2.2.tunnels.all (fun tn => tn.closed) = true := by
  intro ctx req m msg tE mE h
  have hex := execute_of_prepare_error m ctx req msg tE mE h
  refine ⟨by rw [hex], by rw [hex], ?_, ?_⟩
  · rw [hex]
    exact prepare_error_restores_manager (MPPTask.mkFresh req ctx) m req msg tE mE rfl h
  · rw [hex]
    exact MPPHandler.handleError_task_tunnels_closed tE mE msg

/-- Witness for C5: a request whose encoded plan fails to parse; the dispatch
returns OK with the decode error in the response, the registry is untouched
and the (empty) tunnel set is closed. -/
theorem c5_prepare_error_clean_failure_witness :
    (MPPHandler.execute emptyManager emptySettings badPlanRequest).1 = GrpcStatus.ok
    ∧ (MPPHandler.execute emptyManager emptySettings badPlanRequest).2.1.error
        = some (invalidPlanMsg badPlanRequest.encoded_plan)
    ∧ (MPPHandler.execute emptyManager emptySettings badPlanRequest).2.2.1 = emptyManager
    ∧ (MPPHandler.execute emptyManager emptySettings badPlanRequest).2.2.2.tunnels.all
        (fun tn => tn.closed) = true :=
  c5_prepare_error_clean_failure emptySettings badPlanRequest emptyManager
    (invalidPlanMsg badPlanRequest.encoded_plan)
    (MPPTask.mkFresh badPlanRequest emptySettings) emptyManager rfl

/-- C6 counterexample: dispatching the same request twice, the second response
carries the prepare registration-failure message
"...: Failed to register MPP Task", not the literal "DuplicateTask" the claim
states (no such string exists in the source). -/
theorem c6_counterexample_error_is_not_duplicatetask :
    ((MPPHandler.execute emptyManager emptySettings dupRequest).2.1.error = none)
    ∧ ((MPPHandler.execute
          (MPPHandler.execute emptyManager emptySettings dupRequest).2.2.1
          emptySettings dupRequest).2.1.error = some registerFailMsg)
    ∧ registerFailMsg ≠ "DuplicateTask"
    ∧ ((MPPHandler.execute
          (MPPHandler.execute emptyManager emptySettings dupRequest).2.2.1
          emptySettings dupRequest).2.1.error ≠ some "DuplicateTask") := by
  have h2 : (MPPHandler.execute
      (MPPHandler.execute emptyManager emptySettings dupRequest).2.2.1
      emptySettings dupRequest).2.1.error = some registerFailMsg := rfl
  have h3 : registerFailMsg ≠ "DuplicateTask" := by decide
  refine ⟨rfl, h2, h3, ?_⟩
  rw [h2]
  intro hcontra
  exact h3 (Option.some.inj hcontra)

/-- C6 (amended): when a dispatch arrives whose task id is already registered
(and whose plan decodes with no duplicate region, so registration is reached),
the second dispatch fails registration: its response error is the
registration-failure message (MPPHandler.cpp line 138), and the registry —
including the first task's entry — is unchanged. -/
theorem c6_amended_duplicate_dispatch :
    ∀ (m : TaskManager) (ctx : SettingsStore) (req : DispatchTaskRequest),
      req.plan.isSome = true →
      firstDupRegion req.regions = none →
      m.contains { start_ts := req.start_ts, task_id := req.task_id } = true →
      (MPPHandler.execute m ctx req).1 = GrpcStatus.ok
      ∧ (MPPHandler.execute m ctx req).2.1.error = some registerFailMsg
      ∧ (MPPHandler.execute m ctx req).2.2.1 = m := by
  intro m ctx req hplan hdup hcont
  cases hp : req.plan with
  | none => rw [hp] at hplan; exact absurd hplan (by simp)
  | some plan =>
    have hprep : (MPPTask.mkFresh req ctx).prepare m req
        = Except.error (registerFailMsg,
            (MPPTask.mkFresh req ctx).withRequestSettings req, m) := by
      unfold MPPTask.prepare
      rw [hp, hdup]
      have hcid : m.contains ((MPPTask.mkFresh req ctx).withRequestSettings req).id
          = true := hcont
      simp [TaskManager.registerTask_collision m _ hcid]
    have hex := execute_of_prepare_error m ctx req registerFailMsg
      ((MPPTask.mkFresh req ctx).withRequestSettings req) m hprep
    refine ⟨by rw [hex], by rw [hex], ?_⟩
    rw [hex]
    simp [MPPHandler.handleError, MPPTask.closeAllTunnel, MPPTask.unregisterTask,
      MPPTask.withRequestSettings, MPPTask.mkFresh]

/-- Witness for C6: the registry produced by the first dispatch of
`dupRequest` already holds its task id, so the second dispatch fails with the
registration message and leaves that registry unchanged. -/
theorem c6_amended_duplicate_dispatch_witness :
    (MPPHandler.execute
        (MPPHandler.execute emptyManager emptySettings dupRequest).2.2.1
        emptySettings dupRequest).1 = GrpcStatus.ok
    ∧ (MPPHandler.execute
        (MPPHandler.execute emptyManager emptySettings dupRequest).2.2.1
        emptySettings dupRequest).2.1.error = some registerFailMsg
    ∧ (MPPHandler.execute
        (MPPHandler.execute emptyManager emptySettings dupRequest).2.2.1
        emptySettings dupRequest).2.2.1
      = (MPPHandler.execute emptyManager emptySettings dupRequest).2.2.1 :=
  c6_amended_duplicate_dispatch
    (MPPHandler.execute emptyManager emptySettings dupRequest).2.2.1
    emptySettings dupRequest rfl rfl rfl
